import Mathlib

/-!
Shallow embedding of the core of `src/src/SalmonUtils.cpp` (sjackman/sailfish):
the library-format compatibility scorer `logAlignFormatProb`, the
fragment-orientation classifier `hitType` (paired and single-end overloads),
and the cluster-share / abundance-normalization logic of `writeAbundances`.

Doubles are modelled as real numbers; the IEEE value `-inf` (the sentinel
`LOG_0`) carried by transcript and cluster log-masses is modelled by `none`
in `Option ℝ`.  `uint32_t` positions are modelled by `ℕ` (they are only
compared, never subject to wrap-around arithmetic).
-/

/-- Modelled from the spec: the `ReadType` enumeration of `LibraryFormat.hpp`
(not in src/): "type: SINGLE_END | PAIRED_END". -/
inductive ReadType where
  | SINGLE_END
  | PAIRED_END
deriving DecidableEq, Repr

/-- Modelled from the spec: the `ReadOrientation` enumeration of
`LibraryFormat.hpp` (not in src/): "orientation: TOWARD | AWAY | SAME | NONE". -/
inductive ReadOrientation where
  | TOWARD
  | AWAY
  | SAME
  | NONE
deriving DecidableEq, Repr

/-- Modelled from the spec: the `ReadStrandedness` enumeration of
`LibraryFormat.hpp` (not in src/):
"strandedness: SENSE(S) | ANTISENSE(A) | SENSE_ANTISENSE(SA) | ANTISENSE_SENSE(AS) | UNSTRANDED(U)". -/
inductive ReadStrandedness where
  | S
  | A
  | SA
  | AS
  | U
deriving DecidableEq, Repr

/-- Modelled from the spec: the `LibraryFormat` value type of
`LibraryFormat.hpp` (not in src/): an immutable descriptor of
{fragment type, orientation, strandedness} with structural equality. -/
structure LibraryFormat where
  type : ReadType
  orientation : ReadOrientation
  strandedness : ReadStrandedness
deriving DecidableEq, Repr

/-- Modelled from the spec: the process-wide numeric sentinels of the shared
math-constants module (`SailfishMath.hpp`, not in src/): `LOG_0`, `LOG_1`,
`LOG_ONEHALF`, `LOG_ORPHAN_PROB` are fixed real constants; the scorer only
reads them, so the embedding passes them as an explicit record. -/
structure SailfishMathConsts where
  LOG_0 : ℝ
  LOG_1 : ℝ
  LOG_ONEHALF : ℝ
  LOG_ORPHAN_PROB : ℝ

/-- `salmon::utils::logAlignFormatProb` (SalmonUtils.cpp lines 67-97). -/
def logAlignFormatProb (k : SailfishMathConsts) (observed expected : LibraryFormat)
    (incompatPrior : ℝ) : ℝ :=
  -- Allow orphaned reads in a paired-end library, but
  -- decrease their a priori probability.
  if expected.type = ReadType.PAIRED_END ∧ observed.type = ReadType.SINGLE_END then
    let logOrphanProb := k.LOG_ORPHAN_PROB
    if expected.strandedness = ReadStrandedness.U ∨
       expected.strandedness = ReadStrandedness.AS ∨
       expected.strandedness = ReadStrandedness.SA then
      k.LOG_1
    else
      if expected.strandedness = observed.strandedness then logOrphanProb else incompatPrior
  else if observed.type ≠ expected.type ∨ observed.orientation ≠ expected.orientation then
    incompatPrior
  else
    if expected.strandedness = ReadStrandedness.U then
      k.LOG_ONEHALF
    else
      if expected.strandedness = observed.strandedness then
        k.LOG_1
      else
        incompatPrior

/-- The decision table exactly as the spec words it (§4.2 of spec.md), written
independently of the code to be compared against `logAlignFormatProb`:
(1) expected `PAIRED_END` and observed `SINGLE_END`: `LOG_1` when expected
strandedness is `U`, `AS` or `SA`, else `LOG_ORPHAN_PROB` on a strandedness
match and `incompatPrior` otherwise; (2) type or orientation mismatch:
`incompatPrior`; (3) otherwise `LOG_ONEHALF` under `U`, `LOG_1` on an exact
strandedness match, `incompatPrior` otherwise. -/
def specScoreTable (k : SailfishMathConsts) (observed expected : LibraryFormat)
    (incompatPrior : ℝ) : ℝ :=
  if expected.type = ReadType.PAIRED_END ∧ observed.type = ReadType.SINGLE_END then
    if expected.strandedness = ReadStrandedness.U then k.LOG_1
    else if expected.strandedness = ReadStrandedness.AS then k.LOG_1
    else if expected.strandedness = ReadStrandedness.SA then k.LOG_1
    else if expected.strandedness = observed.strandedness then k.LOG_ORPHAN_PROB
    else incompatPrior
  else if observed.type ≠ expected.type then incompatPrior
  else if observed.orientation ≠ expected.orientation then incompatPrior
  else if expected.strandedness = ReadStrandedness.U then k.LOG_ONEHALF
  else if expected.strandedness = observed.strandedness then k.LOG_1
  else incompatPrior

/-- Paired-end `salmon::utils::hitType` (SalmonUtils.cpp lines 192-229).
`none` models the fall-through to the fatal error exit
(`std::exit(-1)` after the diagnostic message). -/
def hitType (end1Start : ℕ) (end1Fwd : Bool) (end2Start : ℕ) (end2Fwd : Bool) :
    Option LibraryFormat :=
  -- If the reads come from opposite strands
  if end1Fwd ≠ end2Fwd then
    -- and if read 1 comes from the forward strand
    if end1Fwd then
      if end1Start ≤ end2Start then
        some ⟨ReadType.PAIRED_END, ReadOrientation.TOWARD, ReadStrandedness.SA⟩
      else
        some ⟨ReadType.PAIRED_END, ReadOrientation.AWAY, ReadStrandedness.SA⟩
    -- and if read 2 comes from the forward strand
    else if end2Fwd then
      if end2Start ≤ end1Start then
        some ⟨ReadType.PAIRED_END, ReadOrientation.TOWARD, ReadStrandedness.AS⟩
      else
        some ⟨ReadType.PAIRED_END, ReadOrientation.AWAY, ReadStrandedness.AS⟩
    else
      none  -- SHOULD NOT GET HERE: the fatal diagnostic-and-exit path
  else  -- Otherwise, the reads come from the same strand
    if end1Fwd then
      some ⟨ReadType.PAIRED_END, ReadOrientation.SAME, ReadStrandedness.S⟩
    else
      some ⟨ReadType.PAIRED_END, ReadOrientation.SAME, ReadStrandedness.A⟩

/-- Single-end `salmon::utils::hitType` overload (SalmonUtils.cpp lines
232-243); both branches return, so the trailing warning is dead code and the
function is total.  (Lean has no overloading, hence the distinct name.) -/
def hitTypeSingle (start : ℕ) (isForward : Bool) : LibraryFormat :=
  -- If the read comes from the forward strand
  if isForward then
    ⟨ReadType.SINGLE_END, ReadOrientation.NONE, ReadStrandedness.S⟩
  else
    ⟨ReadType.SINGLE_END, ReadOrientation.NONE, ReadStrandedness.A⟩

/-- C1: the compatibility scorer implements exactly the spec's decision table,
for every observed and expected `LibraryFormat`, every `incompatPrior`, and
every valuation of the numeric sentinels. -/
theorem logAlignFormatProb_eq_specScoreTable (k : SailfishMathConsts)
    (observed expected : LibraryFormat) (incompatPrior : ℝ) :
    logAlignFormatProb k observed expected incompatPrior =
      specScoreTable k observed expected incompatPrior := by
  obtain ⟨ot, oo, os⟩ := observed
  obtain ⟨et, eo, es⟩ := expected
  cases ot <;> cases et <;> cases eo <;> cases oo <;> cases es <;> cases os <;>
    simp [logAlignFormatProb, specScoreTable]

/-- C5: on opposite strands, the paired classifier follows the ISF/OSF/ISR/OSR
table: with end 1 forward it returns `(PAIRED_END, TOWARD, SA)` when
`end1Start ≤ end2Start` and `(PAIRED_END, AWAY, SA)` otherwise; symmetrically
with end 2 forward it returns `(PAIRED_END, TOWARD, AS)` when
`end2Start ≤ end1Start` and `(PAIRED_END, AWAY, AS)` otherwise. -/
theorem hitType_opposite_strands (s1 s2 : ℕ) (f1 f2 : Bool) (h : f1 ≠ f2) :
    (f1 = true →
      (s1 ≤ s2 → hitType s1 f1 s2 f2 =
        some ⟨ReadType.PAIRED_END, ReadOrientation.TOWARD, ReadStrandedness.SA⟩) ∧
      (s2 < s1 → hitType s1 f1 s2 f2 =
        some ⟨ReadType.PAIRED_END, ReadOrientation.AWAY, ReadStrandedness.SA⟩)) ∧
    (f2 = true →
      (s2 ≤ s1 → hitType s1 f1 s2 f2 =
        some ⟨ReadType.PAIRED_END, ReadOrientation.TOWARD, ReadStrandedness.AS⟩) ∧
      (s1 < s2 → hitType s1 f1 s2 f2 =
        some ⟨ReadType.PAIRED_END, ReadOrientation.AWAY, ReadStrandedness.AS⟩)) := by
  cases f1 <;> cases f2 <;> simp_all [hitType]

/-- C5 witness: concrete evaluation at `s1 = 2, f1 = true, s2 = 5, f2 = false`. -/
theorem hitType_opposite_strands_witness :
    ((true : Bool) = true →
      (2 ≤ 5 → hitType 2 true 5 false =
        some ⟨ReadType.PAIRED_END, ReadOrientation.TOWARD, ReadStrandedness.SA⟩) ∧
      (5 < 2 → hitType 2 true 5 false =
        some ⟨ReadType.PAIRED_END, ReadOrientation.AWAY, ReadStrandedness.SA⟩)) ∧
    ((false : Bool) = true →
      (5 ≤ 2 → hitType 2 true 5 false =
        some ⟨ReadType.PAIRED_END, ReadOrientation.TOWARD, ReadStrandedness.AS⟩) ∧
      (2 < 5 → hitType 2 true 5 false =
        some ⟨ReadType.PAIRED_END, ReadOrientation.AWAY, ReadStrandedness.AS⟩)) :=
  hitType_opposite_strands 2 5 true false (by decide)

/-- C6: on the same strand the paired classifier returns
`(PAIRED_END, SAME, S)` when both ends are forward and `(PAIRED_END, SAME, A)`
when both are reverse, for all positions; and the single-end classifier returns
`(SINGLE_END, NONE, S)` when `isForward` and `(SINGLE_END, NONE, A)` otherwise,
so its result always carries orientation `NONE`. -/
theorem hitType_same_strand_and_single (s1 s2 : ℕ) (f1 f2 : Bool) (s : ℕ) (f : Bool)
    (h : f1 = f2) :
    (f1 = true → hitType s1 f1 s2 f2 =
      some ⟨ReadType.PAIRED_END, ReadOrientation.SAME, ReadStrandedness.S⟩) ∧
    (f1 = false → hitType s1 f1 s2 f2 =
      some ⟨ReadType.PAIRED_END, ReadOrientation.SAME, ReadStrandedness.A⟩) ∧
    hitTypeSingle s f =
      (if f then ⟨ReadType.SINGLE_END, ReadOrientation.NONE, ReadStrandedness.S⟩
       else ⟨ReadType.SINGLE_END, ReadOrientation.NONE, ReadStrandedness.A⟩) ∧
    (hitTypeSingle s f).orientation = ReadOrientation.NONE := by
  subst h
  cases f1 <;> cases f <;> simp [hitType, hitTypeSingle]

/-- C6 witness: concrete evaluation at `s1 = 7, s2 = 3, f1 = f2 = true`,
`s = 0, f = false`. -/
theorem hitType_same_strand_and_single_witness :
    ((true : Bool) = true → hitType 7 true 3 true =
      some ⟨ReadType.PAIRED_END, ReadOrientation.SAME, ReadStrandedness.S⟩) ∧
    ((true : Bool) = false → hitType 7 true 3 true =
      some ⟨ReadType.PAIRED_END, ReadOrientation.SAME, ReadStrandedness.A⟩) ∧
    hitTypeSingle 0 false =
      (if false then ⟨ReadType.SINGLE_END, ReadOrientation.NONE, ReadStrandedness.S⟩
       else ⟨ReadType.SINGLE_END, ReadOrientation.NONE, ReadStrandedness.A⟩) ∧
    (hitTypeSingle 0 false).orientation = ReadOrientation.NONE :=
  hitType_same_strand_and_single 7 3 true true 0 false rfl

/-- C7: the fatal no-case-matches path of the paired-end classifier is
unreachable: for every pair of positions and strand flags the classifier
returns one of the six library formats (the embedding's `none`, which models
the diagnostic-and-exit path, is never produced). -/
theorem hitType_never_fatal (s1 s2 : ℕ) (f1 f2 : Bool) :
    (hitType s1 f1 s2 f2).isSome = true := by
  cases f1 <;> cases f2 <;> simp [hitType] <;> split <;> simp

/-- C10: the single-end classifier ignores its position argument: any two
positions give the same result for the same strand flag. -/
theorem hitTypeSingle_position_independent (start1 start2 : ℕ) (isForward : Bool) :
    hitTypeSingle start1 isForward = hitTypeSingle start2 isForward := rfl

/-- The per-transcript state that `writeAbundances` reads and writes
(SalmonUtils.cpp lines 113-188).  `mass` is the double `t.mass(false)`, with
`none` modelling the IEEE `-inf` sentinel `LOG_0`; `uniqueCount`/`totalCount`
are the accessors `t.uniqueCount()`/`t.totalCount()` (the cached
`uniqueCounts`/`totalCounts` fields are refreshed from these accessors in the
first member loop, so the embedding keeps a single copy);
`cachedEffectiveLength` is the log-space `getCachedEffectiveLength()`. -/
structure Transcript where
  RefName : String
  RefLength : ℝ
  cachedEffectiveLength : ℝ
  mass : Option ℝ
  uniqueCount : ℕ
  totalCount : ℕ
  projectedCounts : ℝ

/-- One cluster as handed out by `alnLib.clusterForest().getClusters()`:
its aggregate log-mass `cptr->logMass()` (with `none` for `LOG_0`), its hit
count `cptr->numHits()`, and its member transcripts (`cptr->members()`
resolved through `refs`; clusters partition the transcript set). -/
structure Cluster where
  logMass : Option ℝ
  numHits : ℕ
  members : List Transcript

/-- The projected count the member loop assigns (SalmonUtils.cpp lines
140-151): `0` for a `LOG_0` transcript mass, otherwise
`exp((mass - logClusterMass) + logClusterCount)`.  When the cluster log-mass
is `LOG_0` (`none`) while the member mass is finite, the C++ subtraction
yields `+inf`; the aggregate-mass invariant (the cluster log-mass is the
log-sum-exp of the member masses, `hAgg` in the theorems below) rules that
combination out, and `Option.getD 0` is a total-function default there. -/
noncomputable def memberProjectedCount (logClusterMass : Option ℝ)
    (logClusterCount : ℝ) (t : Transcript) : ℝ :=
  match t.mass with
  | none => 0
  | some m => Real.exp ((m - logClusterMass.getD 0) + logClusterCount)

/-- The strict out-of-bounds test on a raw share (SalmonUtils.cpp lines
148-149): `projectedCounts > totalCounts or projectedCounts < uniqueCounts`. -/
def outsideBounds (t : Transcript) (pc : ℝ) : Prop :=
  pc > (t.totalCount : ℝ) ∨ pc < (t.uniqueCount : ℝ)

/-- The `requiresProjection` flag accumulated over the member loop
(SalmonUtils.cpp lines 129, 140-151): starts `false`, is left untouched for a
member whose mass is `LOG_0`, and is or-ed with the out-of-bounds test of the
member's freshly assigned share otherwise. -/
noncomputable def requiresProjection (c : Cluster) : Prop :=
  c.members.foldl
    (fun acc t =>
      match t.mass with
      | none => acc
      | some _ =>
          acc ∨ outsideBounds t
            (memberProjectedCount c.logMass (Real.log (c.numHits : ℝ)) t))
    False

/-- The projection trigger (SalmonUtils.cpp line 153):
`clusterSize > 1 and requiresProjection`, where `clusterSize` is the number of
members counted in the first loop. -/
noncomputable def invokesProjection (c : Cluster) : Prop :=
  1 < c.members.length ∧ requiresProjection c

/-- The zero-mass warning test (SalmonUtils.cpp lines 125-127): a non-fatal
message is written to `std::cerr` exactly when `logClusterMass == LOG_0`. -/
def warnsZeroMass (c : Cluster) : Bool :=
  c.logMass.isNone

open Classical

/-- Processing of one cluster (SalmonUtils.cpp lines 120-156): assign every
member its raw share, then hand the members to `cptr->projectToPolytope(refs)`
exactly when the trigger fires.  `projectToPolytope` lives in the cluster
code outside src/, so it is a parameter here. -/
noncomputable def processCluster (projectToPolytope : List Transcript → List Transcript)
    (c : Cluster) : List Transcript :=
  let shared := c.members.map (fun t =>
    { t with projectedCounts :=
        memberProjectedCount c.logMass (Real.log (c.numHits : ℝ)) t })
  if invokesProjection c then projectToPolytope shared else shared

/-- The linear-space contribution of one member mass to a cluster's aggregate:
`exp` of a finite log-mass, `0` for the `LOG_0` sentinel. -/
noncomputable def expOrZero : Option ℝ → ℝ
  | none => 0
  | some x => Real.exp x

/-- Modelled from the spec: the cluster's aggregate log-mass maintained by the
`ClusterForest` (not in src/) — "logMass (aggregate log-probability mass over
all members)" — i.e. the log of the summed linear-space member masses, with
the `LOG_0` sentinel when that sum is zero. -/
noncomputable def logSumExp (ms : List (Option ℝ)) : Option ℝ :=
  let s := (ms.map expOrZero).sum
  if s = 0 then none else some (Real.log s)

theorem expOrZero_nonneg (m : Option ℝ) : 0 ≤ expOrZero m := by
  cases m with
  | none => simp [expOrZero]
  | some x => exact le_of_lt (by simpa [expOrZero] using Real.exp_pos x)

theorem sum_expOrZero_nonneg (ms : List (Option ℝ)) : 0 ≤ (ms.map expOrZero).sum := by
  induction ms with
  | nil => simp
  | cons hd tl ih => simpa using add_nonneg (expOrZero_nonneg hd) ih

theorem sum_expOrZero_eq_zero_iff (ms : List (Option ℝ)) :
    (ms.map expOrZero).sum = 0 ↔ ∀ m ∈ ms, m = none := by
  induction ms with
  | nil => simp
  | cons hd tl ih =>
    have hsplit :
        expOrZero hd + (tl.map expOrZero).sum = 0 ↔
          expOrZero hd = 0 ∧ (tl.map expOrZero).sum = 0 :=
      add_eq_zero_iff_of_nonneg (expOrZero_nonneg hd) (sum_expOrZero_nonneg tl)
    have hhd : expOrZero hd = 0 ↔ hd = none := by
      cases hd with
      | none => simp [expOrZero]
      | some x => simp [expOrZero, Real.exp_ne_zero x]
    simp [hsplit, hhd, ih]

/-- A cluster aggregate is the `LOG_0` sentinel exactly when every member mass
is the `LOG_0` sentinel. -/
theorem logSumExp_eq_none_iff (ms : List (Option ℝ)) :
    logSumExp ms = none ↔ ∀ m ∈ ms, m = none := by
  classical
  unfold logSumExp
  by_cases hs : (ms.map expOrZero).sum = 0
  · simp [hs, sum_expOrZero_eq_zero_iff ms |>.mp hs, (sum_expOrZero_eq_zero_iff ms).symm]
  · simp [hs, (sum_expOrZero_eq_zero_iff ms).symm]

/-- The or-accumulating member loop, characterized: the final flag holds
exactly when the initial one did or some member with a finite (non-`LOG_0`)
mass satisfies the per-member test. -/
theorem foldl_flag_iff (P : Transcript → Prop) (l : List Transcript) (acc : Prop) :
    l.foldl
      (fun a t =>
        match t.mass with
        | none => a
        | some _ => a ∨ P t)
      acc ↔ acc ∨ ∃ t ∈ l, t.mass ≠ none ∧ P t := by
  induction l generalizing acc with
  | nil => simp
  | cons hd tl ih =>
    cases hmass : hd.mass with
    | none =>
      simp only [List.foldl_cons, hmass, ih, List.mem_cons]
      constructor
      · rintro (h | ⟨t, ht, hm, hp⟩)
        · exact Or.inl h
        · exact Or.inr ⟨t, Or.inr ht, hm, hp⟩
      · rintro (h | ⟨t, (rfl | ht), hm, hp⟩)
        · exact Or.inl h
        · exact absurd hmass hm
        · exact Or.inr ⟨t, ht, hm, hp⟩
    | some m =>
      simp only [List.foldl_cons, hmass, ih, List.mem_cons]
      constructor
      · rintro ((h | hp) | ⟨t, ht, hm, hp⟩)
        · exact Or.inl h
        · exact Or.inr ⟨hd, Or.inl rfl, by simp [hmass], hp⟩
        · exact Or.inr ⟨t, Or.inr ht, hm, hp⟩
      · rintro (h | ⟨t, (rfl | ht), hm, hp⟩)
        · exact Or.inl (Or.inl h)
        · exact Or.inl (Or.inr hp)
        · exact Or.inr ⟨t, ht, hm, hp⟩

/-- C2 (amended): the flag holds exactly when some member with a mass other
than `LOG_0` has a raw share strictly outside `[uniqueCount, totalCount]`
(members whose mass is `LOG_0` never contribute to the flag), and the
polytope projection is invoked exactly when the cluster has more than one
member and the flag was set. -/
theorem requiresProjection_iff (c : Cluster) :
    (requiresProjection c ↔
      ∃ t ∈ c.members, t.mass ≠ none ∧
        outsideBounds t
          (memberProjectedCount c.logMass (Real.log (c.numHits : ℝ)) t)) ∧
    (invokesProjection c ↔ 1 < c.members.length ∧ requiresProjection c) := by
  constructor
  · have h := foldl_flag_iff
      (fun t => outsideBounds t
        (memberProjectedCount c.logMass (Real.log (c.numHits : ℝ)) t))
      c.members False
    simpa [requiresProjection] using h
  · exact Iff.rfl

/-- A two-member cluster refuting C2 as stated: the first member has mass
`LOG_0` and `uniqueCount = 1`, so its raw share `exp(-inf) = 0` lies strictly
below its interval `[1, 2]`; the second member's share `exp(0 - 0 + ln 1) = 1`
lies inside `[0, 10]`.  The cluster log-mass `ln(0 + e^0) = 0` agrees with the
aggregate of the member masses. -/
def clusterC2 : Cluster :=
  { logMass := some 0
    numHits := 1
    members :=
      [ { RefName := "t1", RefLength := 100, cachedEffectiveLength := 0,
          mass := none, uniqueCount := 1, totalCount := 2, projectedCounts := 0 },
        { RefName := "t2", RefLength := 100, cachedEffectiveLength := 0,
          mass := some 0, uniqueCount := 0, totalCount := 10, projectedCounts := 0 } ] }

/-- C2 counterexample: in `clusterC2` some member's raw share (with the
`LOG_0` member's share read as `exp(-inf) = 0`, per the claim's formula) falls
strictly outside its interval, and the cluster has more than one member, yet
the code leaves `requiresProjection` unset and never invokes
`projectToPolytope` — so the claimed "if and only if ... for every member,
including members whose mass is LOG_0" is false. -/
theorem claimC2_counterexample :
    (∃ t ∈ clusterC2.members,
      outsideBounds t
        (memberProjectedCount clusterC2.logMass (Real.log (clusterC2.numHits : ℝ)) t)) ∧
    1 < clusterC2.members.length ∧
    ¬ requiresProjection clusterC2 ∧
    ¬ invokesProjection clusterC2 := by
  have hshare2 :
      Real.exp ((0 : ℝ) - (Option.getD (some (0 : ℝ)) 0) + Real.log ((1 : ℕ) : ℝ)) = 1 := by
    norm_num [Real.log_one, Real.exp_zero]
  refine ⟨⟨clusterC2.members.head (by simp [clusterC2]), by simp [clusterC2], ?_⟩, ?_, ?_, ?_⟩
  · simp [clusterC2, memberProjectedCount, outsideBounds]
  · simp [clusterC2]
  · simp only [requiresProjection, clusterC2, List.foldl_cons, List.foldl_nil]
    simp [outsideBounds, memberProjectedCount, hshare2]
  · rintro ⟨-, hflag⟩
    revert hflag
    simp only [requiresProjection, clusterC2, List.foldl_cons, List.foldl_nil]
    simp [outsideBounds, memberProjectedCount, hshare2]

/-- C3: a cluster whose aggregate log-mass is the `LOG_0` sentinel triggers
the non-fatal warning, and every member transcript comes out of the cluster
processing with `projectedCounts = 0`.  The aggregate-mass hypothesis `hAgg`
is the spec's cluster invariant (the `ClusterForest` maintaining `logMass` is
not in src/): the cluster log-mass is the log-sum-exp aggregate of the member
masses. -/
theorem zeroMassCluster_warns_and_counts_zero
    (projectToPolytope : List Transcript → List Transcript) (c : Cluster)
    (hAgg : c.logMass = logSumExp (c.members.map Transcript.mass))
    (hzero : c.logMass = none) (t : Transcript)
    (ht : t ∈ processCluster projectToPolytope c) :
    warnsZeroMass c = true ∧ t.projectedCounts = 0 := by
  have hnone : logSumExp (c.members.map Transcript.mass) = none := hAgg.symm.trans hzero
  have hall : ∀ u ∈ c.members, u.mass = none := by
    intro u hu
    exact (logSumExp_eq_none_iff _).mp hnone u.mass (List.mem_map_of_mem _ hu)
  have hflag : ¬ requiresProjection c := by
    unfold requiresProjection
    rw [foldl_flag_iff]
    rintro (h | ⟨u, hu, hm, -⟩)
    · exact h
    · exact hm (hall u hu)
  have hinv : ¬ invokesProjection c := fun h => hflag h.2
  simp only [processCluster] at ht
  rw [if_neg hinv] at ht
  obtain ⟨u, hu, rfl⟩ := List.mem_map.mp ht
  exact ⟨by simp [warnsZeroMass, hzero], by simp [memberProjectedCount, hall u hu]⟩

/-- The one-member zero-mass cluster used to exercise C3; its member starts
with a stale nonzero `projectedCounts` that the pass overwrites with `0`. -/
def clusterC3 : Cluster :=
  { logMass := none
    numHits := 2
    members :=
      [ { RefName := "z", RefLength := 50, cachedEffectiveLength := 0,
          mass := none, uniqueCount := 0, totalCount := 3, projectedCounts := 5 } ] }

/-- C3 witness: concrete evaluation on `clusterC3` with the identity standing
in for the (never invoked) polytope projection. -/
theorem zeroMassCluster_witness :
    warnsZeroMass clusterC3 = true ∧
    Transcript.projectedCounts
      { RefName := "z", RefLength := 50, cachedEffectiveLength := 0,
        mass := none, uniqueCount := 0, totalCount := 3, projectedCounts := 0 } = 0 :=
  zeroMassCluster_warns_and_counts_zero id clusterC3
    (by simp [clusterC3, logSumExp, expOrZero]) rfl _
    (by simp [processCluster, clusterC3, memberProjectedCount])

/-- C4: a member transcript whose mass is the `LOG_0` sentinel leaves cluster
processing with `projectedCounts = 0`, whatever the cluster's size, log-mass,
hit count, and whether or not the polytope projection was triggered.  `hproj`
is the spec's contract for the out-of-src/ `projectToPolytope` routine
("a transcript with `mass == LOG_0` always receives `projectedCounts == 0`,
regardless of cluster state"): it preserves the property that every `LOG_0`
member carries a zero projected count. -/
theorem zeroMassTranscript_count_zero
    (projectToPolytope : List Transcript → List Transcript)
    (hproj : ∀ ts : List Transcript,
      (∀ u ∈ ts, u.mass = none → u.projectedCounts = 0) →
      ∀ u ∈ projectToPolytope ts, u.mass = none → u.projectedCounts = 0)
    (c : Cluster) (t : Transcript)
    (ht : t ∈ processCluster projectToPolytope c) (hm : t.mass = none) :
    t.projectedCounts = 0 := by
  have hshared : ∀ u ∈ c.members.map (fun u =>
      { u with projectedCounts :=
          memberProjectedCount c.logMass (Real.log (c.numHits : ℝ)) u }),
      u.mass = none → u.projectedCounts = 0 := by
    intro u hu hmu
    obtain ⟨v, hv, rfl⟩ := List.mem_map.mp hu
    simp only at hmu
    simp [memberProjectedCount, hmu]
  simp only [processCluster] at ht
  by_cases hinv : invokesProjection c
  · rw [if_pos hinv] at ht
    exact hproj _ hshared t ht hm
  · rw [if_neg hinv] at ht
    exact hshared t ht hm

/-- A two-member cluster that does trigger the projection branch, used to
exercise C4: the second member's raw share `exp(0 - 0 + ln 1) = 1` falls
strictly below its interval `[5, 5]`, so `requiresProjection` fires and the
cluster has more than one member. -/
def clusterC4 : Cluster :=
  { logMass := some 0
    numHits := 1
    members :=
      [ { RefName := "z4", RefLength := 10, cachedEffectiveLength := 0,
          mass := none, uniqueCount := 3, totalCount := 5, projectedCounts := 7 },
        { RefName := "m4", RefLength := 10, cachedEffectiveLength := 0,
          mass := some 0, uniqueCount := 5, totalCount := 5, projectedCounts := 0 } ] }

/-- C4 witness: concrete evaluation on `clusterC4`, with the identity as a
projection routine satisfying the zero-preservation contract. -/
theorem zeroMassTranscript_count_zero_witness :
    Transcript.projectedCounts
      { RefName := "z4", RefLength := 10, cachedEffectiveLength := 0,
        mass := none, uniqueCount := 3, totalCount := 5, projectedCounts := 0 } = 0 :=
  zeroMassTranscript_count_zero id (fun _ h => h) clusterC4 _
    (by simp [processCluster, clusterC4, memberProjectedCount]) rfl

/-- The configuration flag the normalizer reads (`sopt.noEffectiveLengthCorrection`). -/
structure SalmonOpts where
  noEffectiveLengthCorrection : Bool

/-- One output row of `writeAbundances` (SalmonUtils.cpp lines 185-187):
`Name, Length, TPM, FPKM, NumReads`. -/
structure AbundanceRow where
  name : String
  length : ℝ
  tpm : ℝ
  fpkm : ℝ
  numReads : ℝ

/-- Pass 1 per-transcript reference length (SalmonUtils.cpp lines 162-164):
the raw `RefLength` when effective-length correction is off, otherwise
`exp(getCachedEffectiveLength())`. -/
noncomputable def pass1RefLength (sopt : SalmonOpts) (t : Transcript) : ℝ :=
  if sopt.noEffectiveLengthCorrection then t.RefLength
  else Real.exp t.cachedEffectiveLength

/-- Pass 1 (SalmonUtils.cpp lines 160-167):
`tfracDenom = Σ_t (projectedCounts / numMappedReads) / refLength`. -/
noncomputable def tfracDenom (sopt : SalmonOpts) (numMappedReads : ℝ)
    (ts : List Transcript) : ℝ :=
  (ts.map (fun t => (t.projectedCounts / numMappedReads) / pass1RefLength sopt t)).sum

/-- Pass 2 per-transcript log-length (SalmonUtils.cpp lines 171-173):
`log(RefLength)` when effective-length correction is off, otherwise the
cached (log-space) effective length. -/
noncomputable def pass2LogLength (sopt : SalmonOpts) (t : Transcript) : ℝ :=
  if sopt.noEffectiveLengthCorrection then Real.log t.RefLength
  else t.cachedEffectiveLength

/-- Pass 2 for one transcript (SalmonUtils.cpp lines 170-187):
`fpkmFactor = exp(logBillion - logLength - logNumFragments)`,
`fpkm = count > 0 ? fpkmFactor * count : 0`,
`npm = projectedCounts / numMappedReads`, `refLength = exp(logLength)`,
`tfrac = (npm / refLength) / tfracDenom`, `tpm = tfrac * million`. -/
noncomputable def abundanceRow (sopt : SalmonOpts) (numMappedReads tfracD : ℝ)
    (t : Transcript) : AbundanceRow :=
  let logLength := pass2LogLength sopt t
  let fpkmFactor := Real.exp (Real.log 1000000000 - logLength - Real.log numMappedReads)
  let count := t.projectedCounts
  let fpkm := if count > 0 then fpkmFactor * count else 0
  let npm := t.projectedCounts / numMappedReads
  let refLength := Real.exp logLength
  let tfrac := (npm / refLength) / tfracD
  let tpm := tfrac * 1000000
  { name := t.RefName, length := t.RefLength, tpm := tpm, fpkm := fpkm, numReads := count }

/-- The normalizer (SalmonUtils.cpp lines 159-188): pass 1 computes
`tfracDenom` over the whole transcript set, pass 2 emits one row per
transcript using that denominator. -/
noncomputable def writeAbundancesRows (sopt : SalmonOpts) (numMappedReads : ℝ)
    (ts : List Transcript) : List AbundanceRow :=
  ts.map (abundanceRow sopt numMappedReads (tfracDenom sopt numMappedReads ts))

/-- C8: in the normalizer's second pass, every transcript's row satisfies
`fpkm = exp(ln 1e9 - logEffectiveLength - ln numMappedReads) * count` when
`count > 0` and is exactly `0` when `count = 0` (no `log(0)` enters the FPKM
of a zero-count transcript), and
`tpm = (((count / numMappedReads) / effectiveLength) / tfracDenom) * 1e6`, so
a zero-count transcript also gets `tpm = 0`. -/
theorem pass2_row_formulas (sopt : SalmonOpts) (numMappedReads : ℝ)
    (ts : List Transcript) (t : Transcript) :
    (abundanceRow sopt numMappedReads (tfracDenom sopt numMappedReads ts) t).fpkm =
      (if 0 < t.projectedCounts then
        Real.exp (Real.log 1000000000 - pass2LogLength sopt t - Real.log numMappedReads) *
          t.projectedCounts
       else 0) ∧
    (abundanceRow sopt numMappedReads (tfracDenom sopt numMappedReads ts) t).tpm =
      (((t.projectedCounts / numMappedReads) / Real.exp (pass2LogLength sopt t)) /
        tfracDenom sopt numMappedReads ts) * 1000000 ∧
    (t.projectedCounts = 0 →
      (abundanceRow sopt numMappedReads (tfracDenom sopt numMappedReads ts) t).fpkm = 0 ∧
      (abundanceRow sopt numMappedReads (tfracDenom sopt numMappedReads ts) t).tpm = 0) := by
  refine ⟨rfl, rfl, fun hc => ⟨?_, ?_⟩⟩
  · simp [abundanceRow, hc]
  · simp [abundanceRow, hc]

/-- The single transcript used to exercise C8 at a concrete zero-count input. -/
def transcriptC8 : Transcript :=
  { RefName := "c8", RefLength := 4, cachedEffectiveLength := 0,
    mass := none, uniqueCount := 0, totalCount := 0, projectedCounts := 0 }

/-- C8 witness: concrete evaluation at `transcriptC8` (count `0`) with
`numMappedReads = 1`, confirming both outputs vanish. -/
theorem pass2_row_formulas_witness :
    (abundanceRow ⟨true⟩ 1 (tfracDenom ⟨true⟩ 1 [transcriptC8]) transcriptC8).fpkm =
      (if 0 < transcriptC8.projectedCounts then
        Real.exp (Real.log 1000000000 - pass2LogLength ⟨true⟩ transcriptC8 - Real.log 1) *
          transcriptC8.projectedCounts
       else 0) ∧
    (abundanceRow ⟨true⟩ 1 (tfracDenom ⟨true⟩ 1 [transcriptC8]) transcriptC8).tpm =
      (((transcriptC8.projectedCounts / 1) / Real.exp (pass2LogLength ⟨true⟩ transcriptC8)) /
        tfracDenom ⟨true⟩ 1 [transcriptC8]) * 1000000 ∧
    (transcriptC8.projectedCounts = 0 →
      (abundanceRow ⟨true⟩ 1 (tfracDenom ⟨true⟩ 1 [transcriptC8]) transcriptC8).fpkm = 0 ∧
      (abundanceRow ⟨true⟩ 1 (tfracDenom ⟨true⟩ 1 [transcriptC8]) transcriptC8).tpm = 0) :=
  pass2_row_formulas ⟨true⟩ 1 [transcriptC8] transcriptC8

/-- C9: in exact real arithmetic the emitted TPM values sum to `1e6` whenever
`tfracDenom` is non-zero: both passes select the same effective length for
each transcript (reference lengths are taken positive, so that
`exp(log RefLength) = RefLength` when correction is off), so each `tfrac` is
its transcript's pass-1 summand divided by the pass-1 sum. -/
theorem tpm_sum_is_million (sopt : SalmonOpts) (numMappedReads : ℝ)
    (ts : List Transcript)
    (hlen : ∀ t ∈ ts, sopt.noEffectiveLengthCorrection = true → 0 < t.RefLength)
    (hD : tfracDenom sopt numMappedReads ts ≠ 0) :
    ((writeAbundancesRows sopt numMappedReads ts).map AbundanceRow.tpm).sum =
      1000000 := by
  have hexp : ∀ t ∈ ts, Real.exp (pass2LogLength sopt t) = pass1RefLength sopt t := by
    intro t ht
    by_cases hflag : sopt.noEffectiveLengthCorrection
    · simp [pass2LogLength, pass1RefLength, hflag, Real.exp_log (hlen t ht hflag)]
    · simp [pass2LogLength, pass1RefLength, hflag]
  have hrow : ∀ t ∈ ts,
      (abundanceRow sopt numMappedReads (tfracDenom sopt numMappedReads ts) t).tpm =
        ((t.projectedCounts / numMappedReads) / pass1RefLength sopt t) *
          (1000000 / tfracDenom sopt numMappedReads ts) := by
    intro t ht
    show (((t.projectedCounts / numMappedReads) / Real.exp (pass2LogLength sopt t)) /
        tfracDenom sopt numMappedReads ts) * 1000000 = _
    rw [hexp t ht]
    ring
  calc ((writeAbundancesRows sopt numMappedReads ts).map AbundanceRow.tpm).sum
      = (ts.map (fun t =>
          (abundanceRow sopt numMappedReads (tfracDenom sopt numMappedReads ts) t).tpm)).sum := by
        simp [writeAbundancesRows, List.map_map, Function.comp_def]
    _ = (ts.map (fun t =>
          ((t.projectedCounts / numMappedReads) / pass1RefLength sopt t) *
            (1000000 / tfracDenom sopt numMappedReads ts))).sum := by
        rw [List.map_congr_left hrow]
    _ = (ts.map (fun t =>
          (t.projectedCounts / numMappedReads) / pass1RefLength sopt t)).sum *
            (1000000 / tfracDenom sopt numMappedReads ts) :=
        List.sum_map_mul_right ts _ _
    _ = tfracDenom sopt numMappedReads ts *
          (1000000 / tfracDenom sopt numMappedReads ts) := rfl
    _ = 1000000 := by field_simp

/-- The one-transcript set used to exercise C9: one mapped read on one
transcript of length `1`, with effective-length correction off. -/
def transcriptC9 : Transcript :=
  { RefName := "c9", RefLength := 1, cachedEffectiveLength := 0,
    mass := some 0, uniqueCount := 1, totalCount := 1, projectedCounts := 1 }

/-- C9 witness: concrete evaluation on `transcriptC9` with
`numMappedReads = 1`, where `tfracDenom = (1/1)/1 = 1 ≠ 0`. -/
theorem tpm_sum_is_million_witness :
    ((writeAbundancesRows ⟨true⟩ 1 [transcriptC9]).map AbundanceRow.tpm).sum =
      1000000 :=
  tpm_sum_is_million ⟨true⟩ 1 [transcriptC9]
    (by intro t ht _; simp [transcriptC9] at ht; simp [ht, transcriptC9])
    (by simp [tfracDenom, pass1RefLength, transcriptC9])
